import Mathlib

/-!
Shallow embedding of the playback entitlement and session controller of the
ott-redsee repository (Node/Express + Mongoose), covering:

* quality negotiation (src/src/controllers/user/streamingController.js:
  `QUALITY_LEVELS`, `AVAILABLE_QUALITIES`, `getMaxQuality`, `validateQuality`,
  `getAvailableQualitiesList`),
* media key derivation (src/src/config/r2.js: `getVideoPath`),
* the stream-start pipeline (`getMovieStream`) and the qualities endpoint
  (`getAvailableQualities`),
* the concurrency-guard behaviour of the user document
  (src/src/models/User.js: `checkStreamLimit`, `checkDeviceLimit`) together
  with an interleaving model of concurrent admissions,
* the playback position ledger (WatchHistory model `updateProgress` and the
  controller `updatePlaybackPosition`),
* device registration (src/src/controllers/user/deviceController.js:
  `registerDevice`).

JavaScript string truthiness (undefined / "" are falsy) is modelled with
`Option String` plus `strTruthy`; JS numbers that hold durations are modelled
as rationals (ℚ); `Math.round` is `round` (both round halves toward +∞);
timestamps are integers; `parseInt(env) || d` is `Option Nat` with 0 and
missing both falling back to the default.
-/

/-- JS truthiness of an optional string: `undefined` and `""` are falsy. -/
def strTruthy : Option String → Bool
  | none => false
  | some s => s != ""

/-- JS `s || dflt` for an optional string (empty string falls through). -/
def jsOrStr (s : Option String) (dflt : String) : String :=
  match s with
  | none => dflt
  | some v => if v = "" then dflt else v

/-! ### Quality negotiation (streamingController.js lines 12-64) -/

/-- `QUALITY_LEVELS[q] || 0`: the rank of a quality string; unknown strings
have rank 0 (the JS object lookup yields `undefined`, coerced to 0). -/
def QUALITY_LEVELS (q : String) : Nat :=
  if q = "480p" then 1
  else if q = "720p" then 2
  else if q = "1080p" then 3
  else if q = "4K" then 4
  else 0

/-- The ordered list of known qualities (`AVAILABLE_QUALITIES`). -/
def AVAILABLE_QUALITIES : List String := ["480p", "720p", "1080p", "4K"]

/-- Plan features subdocument (models/Plan.js `features`). Numeric fields are
optional to model documents missing them. -/
structure PlanFeatures where
  maxDevices : Option Nat
  maxStreams : Option Nat
  quality : Option String
  adFree : Bool
  download : Bool
  deriving DecidableEq, Repr

/-- A subscription plan; `features` optional to model `!plan.features`. -/
structure Plan where
  features : Option PlanFeatures
  deriving DecidableEq, Repr

/-- streamingController.js `getMaxQuality`: defaults to `"480p"` when the
plan, its features or its quality field is missing (or the empty string,
which is falsy in JS). -/
def getMaxQuality (plan : Option Plan) : String :=
  match plan with
  | none => "480p"
  | some p =>
    match p.features with
    | none => "480p"
    | some f =>
      match f.quality with
      | none => "480p"
      | some q => if q = "" then "480p" else q

/-- streamingController.js `validateQuality`: with no (or empty) requested
quality return the plan cap; otherwise compare ranks
(`QUALITY_LEVELS[requested] || 0` vs `QUALITY_LEVELS[max] || 1`) and clamp
down to the cap only when the requested rank exceeds the cap rank. -/
def validateQuality (requestedQuality : Option String) (maxQuality : String) : String :=
  match requestedQuality with
  | none => maxQuality
  | some q =>
    if q = "" then maxQuality
    else
      let requestedLevel := QUALITY_LEVELS q
      let maxLevel := if QUALITY_LEVELS maxQuality = 0 then 1 else QUALITY_LEVELS maxQuality
      if requestedLevel > maxLevel then maxQuality else q

/-- streamingController.js `getAvailableQualitiesList`: all known tiers whose
rank is at most the cap's rank (cap rank defaults to 1 for unknown caps). -/
def getAvailableQualitiesList (maxQuality : String) : List String :=
  let maxLevel := if QUALITY_LEVELS maxQuality = 0 then 1 else QUALITY_LEVELS maxQuality
  AVAILABLE_QUALITIES.filter (fun q => QUALITY_LEVELS q ≤ maxLevel)

/-- The minimum of two qualities in the `480p < 720p < 1080p < 4K` order
(used to state the specification's `min(q, cap)` clause). -/
def minQ (a b : String) : String :=
  if QUALITY_LEVELS a ≤ QUALITY_LEVELS b then a else b

/-! ### Media key derivation (config/r2.js `getVideoPath`) -/

/-- JS interpolation of a possibly-null value into a template string. -/
def jsShow : Option String → String
  | none => "null"
  | some s => s

/-- config/r2.js `getVideoPath`: returns `none` on the `throw` branch for an
invalid type. A truthy quality selects the legacy quality-keyed HLS manifest
path, otherwise the single-file path. -/
def getVideoPath (type contentId : String) (quality seasonId episodeId : Option String) :
    Option String :=
  if type = "movie" then
    if strTruthy quality then
      some ("movies/" ++ contentId ++ "/" ++ jsShow quality ++ "/index.m3u8")
    else
      some ("movies/" ++ contentId ++ "/video.mp4")
  else if type = "episode" then
    if strTruthy quality then
      some ("series/" ++ contentId ++ "/" ++ jsShow seasonId ++ "/" ++ jsShow episodeId ++
        "/" ++ jsShow quality ++ "/index.m3u8")
    else
      some ("series/" ++ contentId ++ "/" ++ jsShow seasonId ++ "/" ++ jsShow episodeId ++
        "/video.mp4")
  else none

example : validateQuality (some "4K") "720p" = "720p" := by decide
example : getAvailableQualitiesList "720p" = ["480p", "720p"] := by decide
example : validateQuality (some "8K") "4K" = "8K" := by decide
example : getVideoPath "movie" "m1" (some "720p") none none =
    some "movies/m1/720p/index.m3u8" := by decide

/-! ### Account data model (models/User.js) -/

/-- One entry of the active-stream registry (`currentStreams` subdocument). -/
structure StreamEntry where
  contentId : String
  contentType : String
  deviceId : String
  startedAt : Int
  deriving DecidableEq, Repr

/-- One entry of the device registry (`devices` subdocument). -/
structure Device where
  deviceId : String
  deviceName : String
  deviceType : String
  lastActive : Int
  ipAddress : Option String
  userAgent : Option String
  deriving DecidableEq, Repr

/-- The account aggregate: device registry plus active-stream registry. -/
structure User where
  devices : List Device
  currentStreams : List StreamEntry
  deriving DecidableEq, Repr

/-- `parseInt(process.env.X) || d`: a missing or zero configured value falls
back to the default `d`. -/
def envCap (env : Option Nat) (d : Nat) : Nat :=
  match env with
  | none => d
  | some n => if n = 0 then d else n

/-- User.js `checkStreamLimit`: the registry length is compared against the
globally configured `MAX_CONCURRENT_STREAMS` (default 3) — the plan's
`features.maxStreams` is not consulted. -/
def checkStreamLimit (env : Option Nat) (u : User) : Bool :=
  u.currentStreams.length < envCap env 3

/-- User.js `checkDeviceLimit`: registry length vs the configured
`MAX_DEVICES_PER_USER` (default 5). -/
def checkDeviceLimit (env : Option Nat) (u : User) : Bool :=
  u.devices.length < envCap env 5

/-! ### Subscription (models/Subscription.js) -/

inductive SubStatus where
  | pending | active | cancelled | expired
  deriving DecidableEq, Repr

/-- A subscription document (with its populated plan). `endDate` is a
millisecond timestamp compared against `now`. -/
structure Subscription where
  status : SubStatus
  endDate : Int
  plan : Option Plan
  deriving DecidableEq, Repr

/-- Subscription.js `isActive`: status is `active` and `endDate > new Date()`
(strictly later than now). -/
def Subscription.isActive (s : Subscription) (now : Int) : Bool :=
  s.status = SubStatus.active && now < s.endDate

/-! ### Stream-start pipeline (streamingController.js `getMovieStream`) -/

/-- A movie document restricted to the fields the pipeline reads; `video`
optional (and possibly empty) to model JS falsiness of the stored path. -/
structure Movie where
  video : Option String
  isActive : Bool
  deriving DecidableEq, Repr

/-- Failure modes of the pipeline, by response: 404 user, 403 `Active
subscription required`, 403 `Maximum concurrent streams reached`, 404 movie. -/
inductive StreamError where
  | userNotFound
  | entitlement
  | streamLimit
  | movieNotFound
  deriving DecidableEq, Repr

/-- The success payload: the resolved media object key, the quality claim
embedded in the streaming token, the token's content id, and the response's
quality fields. -/
structure StreamOk where
  videoPath : String
  tokenQuality : String
  tokenContentId : String
  quality : String
  maxQuality : String
  availableQualities : List String
  deriving DecidableEq, Repr

/-- streamingController.js `getMovieStream` (lines 69-185), as a function of
the database rows it reads. `user` is the account row, `subscription` the
result of the findOne query for this user with status active, `movie` the movie
row. `freshTok` and `freshEntry` stand for the two separate `uuidv4()` calls
used when no device id is supplied. The first component of the result is the
account row after the request (the registry entry is appended and saved only
on success). -/
def getMovieStream (env : Option Nat) (now : Int) (user : Option User)
    (subscription : Option Subscription) (movie : Option Movie)
    (id : String) (deviceId quality : Option String) (freshTok freshEntry : String) :
    Option User × Except StreamError StreamOk :=
  match user with
  | none => (none, Except.error StreamError.userNotFound)
  | some u =>
    match subscription with
    | none => (some u, Except.error StreamError.entitlement)
    | some sub =>
      if !(sub.isActive now) then (some u, Except.error StreamError.entitlement)
      else
        let plan := sub.plan
        let maxQuality := getMaxQuality plan
        let validQuality := validateQuality quality maxQuality
        let availableQualities := getAvailableQualitiesList maxQuality
        if !(checkStreamLimit env u) then (some u, Except.error StreamError.streamLimit)
        else
          match movie with
          | none => (some u, Except.error StreamError.movieNotFound)
          | some m =>
            if !m.isActive then (some u, Except.error StreamError.movieNotFound)
            else
              -- `if (!videoPath || quality)` — the derived quality-keyed path
              -- is taken when the stored path is falsy OR a quality was
              -- requested; for type "movie" `getVideoPath` never throws.
              let videoPath :=
                if !(strTruthy m.video) || strTruthy quality then
                  (getVideoPath "movie" id (some validQuality) none none).getD ""
                else
                  m.video.getD ""
              let entry : StreamEntry :=
                { contentId := id, contentType := "Movie",
                  deviceId := jsOrStr deviceId freshEntry, startedAt := now }
              let _tokenDeviceId := jsOrStr deviceId freshTok
              ({ u with currentStreams := u.currentStreams ++ [entry] } |> some,
               Except.ok
                 { videoPath := videoPath, tokenQuality := validQuality,
                   tokenContentId := id, quality := validQuality,
                   maxQuality := maxQuality, availableQualities := availableQualities })

/-- The qualities endpoint's success payload (`getAvailableQualities`). -/
structure QualitiesOk where
  maxQuality : String
  availableQualities : List String
  deriving DecidableEq, Repr

/-- streamingController.js `getAvailableQualities` (lines 441-479): fails
with the entitlement error unless the active subscription exists and is
time-valid. -/
def getAvailableQualities (now : Int) (subscription : Option Subscription) :
    Except StreamError QualitiesOk :=
  match subscription with
  | none => Except.error StreamError.entitlement
  | some sub =>
    if !(sub.isActive now) then Except.error StreamError.entitlement
    else
      let maxQuality := getMaxQuality sub.plan
      Except.ok { maxQuality := maxQuality,
                  availableQualities := getAvailableQualitiesList maxQuality }

/-! ### Interleaving model of concurrent stream admissions

Each admission request in `getMovieStream` performs two database operations
against the shared account row: it loads the row (`User.findById`), then —
after `checkStreamLimit` passes on the *loaded copy* — pushes the stream
entry and saves. Mongoose translates the save of an array push into a
`$push` update with no version guard on the filter, so concurrent saves all
append. A request is therefore a `read` step (take a snapshot) followed by a
`commit` step (check the limit on the snapshot, append to the live row on
success). Interleavings of several requests are arbitrary sequences of these
steps. -/

/-- One scheduler step: request `i` loads the account row, or request `i`
runs its check-then-append against its earlier snapshot. -/
inductive AdmitAction where
  | read (i : Nat)
  | commit (i : Nat)
  deriving DecidableEq, Repr

/-- Per-request bookkeeping: the entry it wants to append, the snapshot it
loaded (none until its `read` step), and its outcome (none until `commit`;
`true` = admitted, `false` = rejected with the stream-limit error). -/
structure ReqState where
  entry : StreamEntry
  snapshot : Option User
  result : Option Bool
  deriving DecidableEq, Repr

/-- The shared account row plus the in-flight requests. -/
structure GuardState where
  db : User
  reqs : List ReqState
  deriving DecidableEq, Repr

/-- One step of the admission interleaving. `commit` evaluates
`checkStreamLimit` on the snapshot the request loaded, exactly as the code
evaluates it on its own loaded copy of the user document. -/
def stepGuard (env : Option Nat) (s : GuardState) : AdmitAction → GuardState
  | AdmitAction.read i =>
    match s.reqs.get? i with
    | none => s
    | some r =>
      if r.snapshot.isNone && r.result.isNone then
        { s with reqs := s.reqs.set i { r with snapshot := some s.db } }
      else s
  | AdmitAction.commit i =>
    match s.reqs.get? i with
    | none => s
    | some r =>
      match r.snapshot, r.result with
      | some snap, none =>
        if checkStreamLimit env snap then
          { db := { s.db with currentStreams := s.db.currentStreams ++ [r.entry] },
            reqs := s.reqs.set i { r with result := some true } }
        else
          { s with reqs := s.reqs.set i { r with result := some false } }
      | _, _ => s

/-- Run a whole schedule of admission steps. -/
def runGuard (env : Option Nat) (s : GuardState) (sched : List AdmitAction) : GuardState :=
  sched.foldl (stepGuard env) s

/-! ### Playback position ledger (WatchHistory model + controller) -/

/-- A WatchHistory document restricted to the fields the ledger touches.
Durations are JS numbers (modelled as ℚ); `progress` is the integer result
of `Math.round`. -/
structure WatchHistory where
  watchedDuration : ℚ
  totalDuration : ℚ
  progress : Int
  completed : Bool
  lastWatchedAt : Int
  deriving DecidableEq, Repr

/-- WatchHistory model `updateProgress` (Episode.js/WatchHistory schema,
lines 136-141): only when `totalDuration > 0` does it recompute
`progress = min(100, Math.round(watched / total * 100))` and
`completed = progress >= 90`; otherwise it changes nothing. `Math.round`
rounds halves toward +inf, exactly as Mathlib's `round` on ℚ. -/
def WatchHistory.updateProgress (h : WatchHistory) : WatchHistory :=
  if 0 < h.totalDuration then
    let p : Int := min 100 (round (h.watchedDuration / h.totalDuration * 100))
    { h with progress := p, completed := decide (90 ≤ p) }
  else h

/-- The in-memory document the controller builds before saving: overwrite
`watchedDuration` unconditionally, overwrite `totalDuration` only when the
supplied value is truthy (nonzero), stamp `lastWatchedAt`, then run
`updateProgress` — or, with no existing row, build a fresh document through
the `|| 0` defaults (progress 0, completed false are the schema defaults)
and run `updateProgress` on it. -/
def upsertCore (now : Int) (existing : Option WatchHistory) (w : ℚ)
    (totalDuration : Option ℚ) : WatchHistory :=
  match existing with
  | some h0 =>
    let h1 := { h0 with watchedDuration := w }
    let h2 :=
      match totalDuration with
      | some t => if t ≠ 0 then { h1 with totalDuration := t } else h1
      | none => h1
    WatchHistory.updateProgress { h2 with lastWatchedAt := now }
  | none =>
    WatchHistory.updateProgress
      { watchedDuration := w, totalDuration := (totalDuration.getD 0),
        progress := 0, completed := false, lastWatchedAt := now }

/-- The Mongoose schema validation of `progress` (`min: 0, max: 100`) run by
`save()`: an out-of-range progress aborts the save, nothing is stored. -/
def validateSave (h : WatchHistory) : Except String WatchHistory :=
  if 0 ≤ h.progress then
    if h.progress ≤ 100 then Except.ok h else Except.error "schema"
  else Except.error "schema"

/-- streamingController.js `updatePlaybackPosition` (lines 382-436) as a
function of the existing row for `(user, contentId, contentType)` (the unique
index guarantees at most one). Missing content id/type or an undefined
`watchedDuration` is the 400 validation failure; otherwise the document is
built by `upsertCore` and stored subject to the schema validation of
`validateSave`. -/
def updatePlaybackPosition (now : Int) (contentId contentType : Option String)
    (existing : Option WatchHistory) (watchedDuration totalDuration : Option ℚ) :
    Except String WatchHistory :=
  if !(strTruthy contentId) || !(strTruthy contentType) || watchedDuration.isNone then
    Except.error "validation"
  else
    validateSave (upsertCore now existing (watchedDuration.getD 0) totalDuration)

/-! ### Device registration (deviceController.js `registerDevice`) -/

inductive RegOutcome where
  | updated
  | created
  | limitExceeded
  deriving DecidableEq, Repr

/-- The in-place mutation of the first registry entry whose id matches:
`existingDevice.lastActive/ipAddress/userAgent` are refreshed, everything
else (and every other entry) is untouched. -/
def refreshFirst (deviceId : String) (now : Int) (ip ua : Option String) :
    List Device → List Device
  | [] => []
  | d :: ds =>
    if d.deviceId = deviceId then
      { d with lastActive := now, ipAddress := ip, userAgent := ua } :: ds
    else
      d :: refreshFirst deviceId now ip ua ds

/-- deviceController.js `registerDevice` (lines 25-79): a known device id is
refreshed in place (`Device updated`); otherwise the device limit is checked
and a new entry appended. `ip` models `req.ip || req.connection.remoteAddress`
and `ua` the user-agent header. -/
def registerDevice (env : Option Nat) (now : Int) (ip ua : Option String)
    (deviceId : String) (deviceName deviceType : Option String)
    (u : User) : User × RegOutcome :=
  if (u.devices.find? (fun d => d.deviceId == deviceId)).isSome then
    ({ u with devices := refreshFirst deviceId now ip ua u.devices }, RegOutcome.updated)
  else if !(checkDeviceLimit env u) then
    (u, RegOutcome.limitExceeded)
  else
    ({ u with devices := u.devices ++
        [{ deviceId := deviceId, deviceName := jsOrStr deviceName "Unknown Device",
           deviceType := jsOrStr deviceType "web", lastActive := now,
           ipAddress := ip, userAgent := ua }] }, RegOutcome.created)

/-! ### Helper lemmas -/

/-- `getMaxQuality` never returns the empty string. -/
theorem getMaxQuality_ne_empty (plan : Option Plan) : getMaxQuality plan ≠ "" := by
  match plan with
  | none => decide
  | some p =>
    match hf : p.features with
    | none => simp [getMaxQuality, hf]
    | some f =>
      match hq : f.quality with
      | none => simp [getMaxQuality, hf, hq]
      | some q =>
        by_cases hqe : q = "" <;> simp [getMaxQuality, hf, hq, hqe]

/-- `validateQuality` never returns the empty string when the cap is not
empty (the requested quality is only returned when it is truthy). -/
theorem validateQuality_ne_empty (q : Option String) (maxQuality : String)
    (h : maxQuality ≠ "") : validateQuality q maxQuality ≠ "" := by
  match q with
  | none => simpa [validateQuality] using h
  | some s =>
    by_cases hs : s = ""
    · simpa [validateQuality, hs] using h
    · by_cases hcmp :
        (if QUALITY_LEVELS maxQuality = 0 then 1 else QUALITY_LEVELS maxQuality) <
          QUALITY_LEVELS s
      · simpa [validateQuality, hs, hcmp] using h
      · simp [validateQuality, hs, hcmp]


/-! ### Claim theorems -/

/-- C4: for every plan cap and every requested quality drawn from the known
tier set, the negotiated serving quality is `min(q, cap)` in the
`480p < 720p < 1080p < 4K` order, its rank never exceeds the cap's rank, the
result is always either the request or the cap (downgrade, never rejection),
and with no requested quality the cap itself is served. -/
theorem negotiated_quality_is_min (q qcap : String)
    (hq : q ∈ AVAILABLE_QUALITIES) (hc : qcap ∈ AVAILABLE_QUALITIES) :
    validateQuality (some q) qcap = minQ q qcap ∧
    QUALITY_LEVELS (validateQuality (some q) qcap) ≤ QUALITY_LEVELS qcap ∧
    (validateQuality (some q) qcap = q ∨ validateQuality (some q) qcap = qcap) ∧
    validateQuality none qcap = qcap := by
  simp only [AVAILABLE_QUALITIES, List.mem_cons, List.not_mem_nil, or_false] at hq hc
  rcases hq with rfl | rfl | rfl | rfl <;> rcases hc with rfl | rfl | rfl | rfl <;> decide

/-- Witness for C4: the spec scenario — plan cap 720p, request 4K. -/
theorem negotiated_quality_is_min_witness :
    validateQuality (some "4K") "720p" = minQ "4K" "720p" ∧
    QUALITY_LEVELS (validateQuality (some "4K") "720p") ≤ QUALITY_LEVELS "720p" ∧
    (validateQuality (some "4K") "720p" = "4K" ∨ validateQuality (some "4K") "720p" = "720p") ∧
    validateQuality none "720p" = "720p" :=
  negotiated_quality_is_min "4K" "720p" (by decide) (by decide)

/-- The hypothesis of C9: either no plan was resolved, or the plan's features
carry no (truthy) quality field. -/
def planQualityMissing (plan : Option Plan) : Prop :=
  ∀ p, plan = some p → ∀ f, p.features = some f → f.quality = none ∨ f.quality = some ""

/-- C9: when the resolved plan is absent or its features carry no quality
field, the maximum quality defaults to `"480p"`, the allowed-qualities list
collapses to `["480p"]`, and every known requested tier is negotiated down to
`"480p"` — quality resolution fails closed to the lowest tier. -/
theorem missing_plan_quality_defaults_480p (plan : Option Plan)
    (h : planQualityMissing plan) :
    getMaxQuality plan = "480p" ∧
    getAvailableQualitiesList (getMaxQuality plan) = ["480p"] ∧
    ∀ q ∈ AVAILABLE_QUALITIES, validateQuality (some q) (getMaxQuality plan) = "480p" := by
  have hm : getMaxQuality plan = "480p" := by
    match plan with
    | none => rfl
    | some p =>
      match hf : p.features with
      | none => simp [getMaxQuality, hf]
      | some f =>
        rcases h p rfl f hf with hq | hq <;> simp [getMaxQuality, hf, hq]
  refine ⟨hm, ?_, ?_⟩ <;> rw [hm] <;> decide

/-- Witness for C9: an account with no resolved plan at all. -/
theorem missing_plan_quality_defaults_480p_witness :
    getMaxQuality none = "480p" ∧
    getAvailableQualitiesList (getMaxQuality none) = ["480p"] ∧
    ∀ q ∈ AVAILABLE_QUALITIES, validateQuality (some q) (getMaxQuality none) = "480p" :=
  missing_plan_quality_defaults_480p none (by simp [planQualityMissing])

/-- C3: a subscription whose status is still `active` but whose end date is
not strictly after the current time is rejected with the entitlement failure
by both the stream-start pipeline and the qualities endpoint; the pipeline
returns the account row unchanged — no stream entry is registered and no
credential payload is produced. -/
theorem expired_subscription_rejected (env : Option Nat) (now : Int) (u : User)
    (sub : Subscription) (movie : Option Movie) (id : String)
    (dev q : Option String) (ftok fent : String)
    (hs : sub.status = SubStatus.active) (he : sub.endDate ≤ now) :
    getMovieStream env now (some u) (some sub) movie id dev q ftok fent =
      (some u, Except.error StreamError.entitlement) ∧
    getAvailableQualities now (some sub) = Except.error StreamError.entitlement := by
  have hact : sub.isActive now = false := by
    simp [Subscription.isActive, hs, not_lt.mpr he]
  constructor
  · simp [getMovieStream, hact]
  · simp [getAvailableQualities, hact]

/-- Witness for C3: status `active`, end date in the past relative to `now`. -/
theorem expired_subscription_rejected_witness :
    getMovieStream none 100
        (some { devices := [], currentStreams := [] })
        (some { status := SubStatus.active, endDate := 50, plan := none })
        (some { video := some "v.mp4", isActive := true }) "m1" none none "t" "e" =
      (some { devices := [], currentStreams := [] }, Except.error StreamError.entitlement) ∧
    getAvailableQualities 100 (some { status := SubStatus.active, endDate := 50, plan := none }) =
      Except.error StreamError.entitlement :=
  expired_subscription_rejected none 100 _ _ _ "m1" none none "t" "e" rfl (by decide)

/-- C10: a requested quality string outside the known tier set (rank 0) is
returned unchanged by quality negotiation — rank 0 never exceeds the cap's
rank — and a stream-start admitting such a request embeds the client-supplied
string both in the derived media object key and in the streaming credential's
quality claim. -/
theorem unknown_quality_passes_through (env : Option Nat) (now : Int) (u : User)
    (sub : Subscription) (m : Movie) (id : String) (dev : Option String)
    (q : String) (ftok fent : String)
    (hq0 : QUALITY_LEVELS q = 0) (hqne : q ≠ "")
    (hs : sub.status = SubStatus.active) (he : now < sub.endDate)
    (hlim : checkStreamLimit env u = true) (hm : m.isActive = true) :
    validateQuality (some q) (getMaxQuality sub.plan) = q ∧
    getMovieStream env now (some u) (some sub) (some m) id dev (some q) ftok fent =
      (some { u with currentStreams := u.currentStreams ++
          [{ contentId := id, contentType := "Movie",
             deviceId := jsOrStr dev fent, startedAt := now }] },
       Except.ok
         { videoPath := "movies/" ++ id ++ "/" ++ q ++ "/index.m3u8",
           tokenQuality := q, tokenContentId := id, quality := q,
           maxQuality := getMaxQuality sub.plan,
           availableQualities := getAvailableQualitiesList (getMaxQuality sub.plan) }) := by
  have hact : sub.isActive now = true := by
    simp [Subscription.isActive, hs, he]
  have hvq : validateQuality (some q) (getMaxQuality sub.plan) = q := by
    simp [validateQuality, hqne, hq0]
  refine ⟨hvq, ?_⟩
  simp [getMovieStream, hact, hlim, hm, hvq, strTruthy, hqne, getVideoPath, jsShow]

/-- Witness for C10: the unknown string `"evil"` is served, keyed and
embedded verbatim. -/
theorem unknown_quality_passes_through_witness :
    validateQuality (some "evil") (getMaxQuality none) = "evil" ∧
    getMovieStream none 0 (some { devices := [], currentStreams := [] })
        (some { status := SubStatus.active, endDate := 100, plan := none })
        (some { video := some "v.mp4", isActive := true }) "m1" (some "d1") (some "evil")
        "t" "e" =
      (some { devices := [], currentStreams :=
          [{ contentId := "m1", contentType := "Movie", deviceId := "d1", startedAt := 0 }] },
       Except.ok
         { videoPath := "movies/m1/evil/index.m3u8",
           tokenQuality := "evil", tokenContentId := "m1", quality := "evil",
           maxQuality := getMaxQuality none,
           availableQualities := getAvailableQualitiesList (getMaxQuality none) }) := by
  have h := unknown_quality_passes_through none 0
    { devices := [], currentStreams := [] }
    { status := SubStatus.active, endDate := 100, plan := none }
    { video := some "v.mp4", isActive := true } "m1" (some "d1") "evil" "t" "e"
    (by decide) (by decide) rfl (by decide) (by decide) rfl
  simpa [jsOrStr] using h

/-- Counterexample for C8: a movie with an explicit stored video path, but a
quality parameter on the request — the derived quality-keyed manifest path is
served, not the stored path, refuting `that path is used whenever present`. -/
theorem stored_path_overridden_by_quality :
    (getMovieStream none 0 (some { devices := [], currentStreams := [] })
        (some { status := SubStatus.active, endDate := 100, plan := none })
        (some { video := some "legacy/path.mp4", isActive := true })
        "m1" (some "d1") (some "480p") "t" "e").2 =
      Except.ok
        { videoPath := "movies/m1/480p/index.m3u8",
          tokenQuality := "480p", tokenContentId := "m1", quality := "480p",
          maxQuality := "480p", availableQualities := ["480p"] } ∧
    "movies/m1/480p/index.m3u8" ≠ "legacy/path.mp4" := by
  constructor
  · rfl
  · decide

/-- C8 (amended): the media key served by a successful stream-start is the
explicit stored path only when that path is present (truthy) AND the request
carried no quality parameter; when the stored path is missing or a quality
was requested, the quality-keyed manifest path derived from the negotiated
quality is used. -/
theorem media_key_resolution_order (env : Option Nat) (now : Int) (u : User)
    (sub : Subscription) (m : Movie) (id : String) (dev q : Option String)
    (ftok fent : String)
    (hs : sub.status = SubStatus.active) (he : now < sub.endDate)
    (hlim : checkStreamLimit env u = true) (hm : m.isActive = true) :
    (getMovieStream env now (some u) (some sub) (some m) id dev q ftok fent).2 =
      Except.ok
        { videoPath :=
            if !(strTruthy m.video) || strTruthy q then
              "movies/" ++ id ++ "/" ++ validateQuality q (getMaxQuality sub.plan) ++
                "/index.m3u8"
            else m.video.getD "",
          tokenQuality := validateQuality q (getMaxQuality sub.plan),
          tokenContentId := id,
          quality := validateQuality q (getMaxQuality sub.plan),
          maxQuality := getMaxQuality sub.plan,
          availableQualities := getAvailableQualitiesList (getMaxQuality sub.plan) } := by
  have hact : sub.isActive now = true := by
    simp [Subscription.isActive, hs, he]
  have hvq : validateQuality q (getMaxQuality sub.plan) ≠ "" :=
    validateQuality_ne_empty q _ (getMaxQuality_ne_empty sub.plan)
  have hpath : getVideoPath "movie" id (some (validateQuality q (getMaxQuality sub.plan)))
      none none =
      some ("movies/" ++ id ++ "/" ++ validateQuality q (getMaxQuality sub.plan) ++
        "/index.m3u8") := by
    simp [getVideoPath, strTruthy, hvq, jsShow]
  simp only [getMovieStream, hact, hlim, hm, Bool.not_true, Bool.false_or,
    Bool.not_false, Bool.true_or, if_true, if_false]
  cases hcond : !(strTruthy m.video) || strTruthy q <;>
    simp [getMovieStream, hact, hlim, hm, hcond, hpath]

/-- Witness for C8 (amended): stored path present, no quality requested — the
stored path is served. -/
theorem media_key_resolution_order_witness :
    (getMovieStream none 0 (some { devices := [], currentStreams := [] })
        (some { status := SubStatus.active, endDate := 100, plan := none })
        (some { video := some "legacy/path.mp4", isActive := true })
        "m1" (some "d1") none "t" "e").2 =
      Except.ok
        { videoPath :=
            if !(strTruthy (some "legacy/path.mp4")) || strTruthy none then
              "movies/" ++ "m1" ++ "/" ++ validateQuality none (getMaxQuality none) ++
                "/index.m3u8"
            else (some "legacy/path.mp4").getD "",
          tokenQuality := validateQuality none (getMaxQuality none),
          tokenContentId := "m1",
          quality := validateQuality none (getMaxQuality none),
          maxQuality := getMaxQuality none,
          availableQualities := getAvailableQualitiesList (getMaxQuality none) } :=
  media_key_resolution_order none 0 { devices := [], currentStreams := [] }
    { status := SubStatus.active, endDate := 100, plan := none }
    { video := some "legacy/path.mp4", isActive := true } "m1" (some "d1") none "t" "e"
    rfl (by decide) (by decide) rfl

/-- A stream entry used by concrete instantiations below. -/
def entryA : StreamEntry :=
  { contentId := "a", contentType := "Movie", deviceId := "d", startedAt := 0 }

/-- An account sitting exactly at the default global cap of 3 streams. -/
def uAtCap : User :=
  { devices := [],
    currentStreams := [entryA, { entryA with contentId := "b" }, { entryA with contentId := "c" }] }

/-- A time-valid active subscription with no populated plan. -/
def subBasic : Subscription := { status := SubStatus.active, endDate := 100, plan := none }

/-- An active movie with a stored single-file path. -/
def movieBasic : Movie := { video := some "v.mp4", isActive := true }

/-- An account with a single active stream. -/
def uOneStream : User := { devices := [], currentStreams := [entryA] }

/-- Features capping concurrent streams at 1 with a 4K quality cap. -/
def featuresCap1 : PlanFeatures :=
  { maxDevices := some 5, maxStreams := some 1, quality := some "4K", adFree := false,
    download := false }

/-- A plan whose features cap concurrent streams at 1. -/
def planCap1 : Plan := { features := some featuresCap1 }

/-- Counterexample for C2: the subscription's plan caps concurrent streams at
1 (`features.maxStreams = 1`) and the account already holds 1 active entry,
yet a further stream-start succeeds and grows the registry to 2 — the
admission check compares against the global configured cap (default 3), never
against the plan's. -/
theorem plan_cap_not_enforced_counterexample :
    planCap1.features.map PlanFeatures.maxStreams = some (some 1) ∧
    uOneStream.currentStreams.length = 1 ∧
    (getMovieStream none 50 (some uOneStream)
        (some { status := SubStatus.active, endDate := 100, plan := some planCap1 })
        (some { video := some "movies/m1/video.mp4", isActive := true })
        "m1" (some "d1") none "t" "e") =
      (some { devices := [],
              currentStreams := [entryA,
                { contentId := "m1", contentType := "Movie", deviceId := "d1", startedAt := 50 }] },
       Except.ok
         { videoPath := "movies/m1/video.mp4",
           tokenQuality := "4K", tokenContentId := "m1", quality := "4K",
           maxQuality := "4K",
           availableQualities := ["480p", "720p", "1080p", "4K"] }) := by
  refine ⟨rfl, rfl, ?_⟩
  rfl

/-- C2 (amended): stream admission is gated by the globally configured
`MAX_CONCURRENT_STREAMS` cap (default 3), not the plan's
`maxConcurrentStreams`: below that cap a new entry is appended to the
account's active-stream registry; at or above it the request fails with the
403 stream-limit error and the registry is unchanged. -/
theorem stream_limit_uses_global_cap (env : Option Nat) (now : Int) (u : User)
    (sub : Subscription) (m : Movie) (id : String) (dev q : Option String)
    (ftok fent : String)
    (hs : sub.status = SubStatus.active) (he : now < sub.endDate)
    (hm : m.isActive = true) :
    (envCap env 3 ≤ u.currentStreams.length →
      getMovieStream env now (some u) (some sub) (some m) id dev q ftok fent =
        (some u, Except.error StreamError.streamLimit)) ∧
    (u.currentStreams.length < envCap env 3 →
      (getMovieStream env now (some u) (some sub) (some m) id dev q ftok fent).1 =
        some { u with currentStreams := u.currentStreams ++
          [{ contentId := id, contentType := "Movie",
             deviceId := jsOrStr dev fent, startedAt := now }] } ∧
      ∃ s, (getMovieStream env now (some u) (some sub) (some m) id dev q ftok fent).2 =
        Except.ok s) := by
  have hact : sub.isActive now = true := by
    simp [Subscription.isActive, hs, he]
  constructor
  · intro hfull
    have hlim : checkStreamLimit env u = false := by
      simp [checkStreamLimit, not_lt.mpr hfull]
    simp [getMovieStream, hact, hlim]
  · intro hroom
    have hlim : checkStreamLimit env u = true := by
      simp [checkStreamLimit, hroom]
    constructor
    · simp [getMovieStream, hact, hlim, hm]
    · simp [getMovieStream, hact, hlim, hm]

/-- Witness for C2 (amended): default cap 3, account at 3 active entries —
the 4th stream-start is rejected with the stream-limit error and the registry
is unchanged. -/
theorem stream_limit_uses_global_cap_witness :
    getMovieStream none 50 (some uAtCap) (some subBasic) (some movieBasic)
        "m1" (some "d1") none "t" "e" =
      (some uAtCap, Except.error StreamError.streamLimit) :=
  (stream_limit_uses_global_cap none 50 uAtCap subBasic movieBasic
    "m1" (some "d1") none "t" "e" rfl (by decide) rfl).1 (by decide)

/-- C1: two parallel stream admissions against a cap of 1 on an empty
registry, interleaved load, load, check-and-save, check-and-save exactly as
the controller's `findById` / `checkStreamLimit` / `push`+`save` sequence
allows: both requests observe the empty snapshot, both pass
`checkStreamLimit`, both are admitted, and the registry ends with 2 entries —
exceeding the cap and refuting `exactly k succeed`. The load-check-append has
no concurrency token, so the claimed atomicity does not hold. -/
theorem guard_race_admits_over_limit :
    envCap (some 1) 3 = 1 ∧
    (runGuard (some 1)
        { db := { devices := [], currentStreams := [] },
          reqs := [{ entry := entryA, snapshot := none, result := none },
            { entry := { entryA with deviceId := "d2" }, snapshot := none, result := none }] }
        [AdmitAction.read 0, AdmitAction.read 1,
         AdmitAction.commit 0, AdmitAction.commit 1]).reqs.map ReqState.result =
      [some true, some true] ∧
    (runGuard (some 1)
        { db := { devices := [], currentStreams := [] },
          reqs := [{ entry := entryA, snapshot := none, result := none },
            { entry := { entryA with deviceId := "d2" }, snapshot := none, result := none }] }
        [AdmitAction.read 0, AdmitAction.read 1,
         AdmitAction.commit 0, AdmitAction.commit 1]).db.currentStreams.length = 2 := by
  refine ⟨rfl, ?_, ?_⟩ <;> rfl

/-- C7: registering a device id that is already present in the account's
device registry reports `Device updated`, leaves the registry length
unchanged, and relates old and new registries pointwise: every entry keeps
its device id, display name and class, and each entry is either untouched or
is the refreshed one with only its last-active timestamp and network origin
(IP address, user agent) replaced. In particular no entry is appended. -/
theorem device_registration_idempotent (env : Option Nat) (now : Int)
    (ip ua : Option String) (did : String) (dn dt : Option String) (u : User)
    (h : ∃ d ∈ u.devices, d.deviceId = did) :
    (registerDevice env now ip ua did dn dt u).2 = RegOutcome.updated ∧
    (registerDevice env now ip ua did dn dt u).1.devices.length = u.devices.length ∧
    List.Forall₂ (fun d d2 => d2.deviceId = d.deviceId ∧ d2.deviceName = d.deviceName ∧
        d2.deviceType = d.deviceType ∧
        (d2 = d ∨ d2 = { d with lastActive := now, ipAddress := ip, userAgent := ua }))
      u.devices (registerDevice env now ip ua did dn dt u).1.devices := by
  have hfind : (u.devices.find? (fun d => d.deviceId == did)).isSome := by
    rw [List.find?_isSome]
    obtain ⟨d, hd, hid⟩ := h
    exact ⟨d, hd, by simp [hid]⟩
  have hreg : registerDevice env now ip ua did dn dt u =
      ({ u with devices := refreshFirst did now ip ua u.devices }, RegOutcome.updated) := by
    simp [registerDevice, hfind]
  rw [hreg]
  have key : ∀ l : List Device,
      (refreshFirst did now ip ua l).length = l.length ∧
      List.Forall₂ (fun d d2 => d2.deviceId = d.deviceId ∧ d2.deviceName = d.deviceName ∧
          d2.deviceType = d.deviceType ∧
          (d2 = d ∨ d2 = { d with lastActive := now, ipAddress := ip, userAgent := ua }))
        l (refreshFirst did now ip ua l) := by
    intro l
    induction l with
    | nil => exact ⟨rfl, List.Forall₂.nil⟩
    | cons d ds ih =>
      by_cases hd : d.deviceId = did
      · refine ⟨by simp [refreshFirst, hd], ?_⟩
        rw [refreshFirst, if_pos hd]
        refine List.Forall₂.cons ⟨rfl, rfl, rfl, Or.inr rfl⟩ ?_
        rw [List.forall₂_same]
        intro x _
        exact ⟨rfl, rfl, rfl, Or.inl rfl⟩
      · refine ⟨by simp [refreshFirst, hd, ih.1], ?_⟩
        rw [refreshFirst, if_neg hd]
        exact List.Forall₂.cons ⟨rfl, rfl, rfl, Or.inl rfl⟩ ih.2
  exact ⟨rfl, (key u.devices).1, (key u.devices).2⟩

/-- A registered device and a user owning exactly that device. -/
def deviceD : Device :=
  { deviceId := "d", deviceName := "Living Room TV", deviceType := "tv", lastActive := 0,
    ipAddress := some "1.1.1.1", userAgent := some "ua1" }

/-- An account whose registry holds the single device `deviceD`. -/
def uOneDevice : User := { devices := [deviceD], currentStreams := [] }

/-- Witness for C7: re-registering the already-known device id of a
one-device registry. -/
theorem device_registration_idempotent_witness :
    (registerDevice none 7 (some "9.9.9.9") (some "ua2") "d"
        (some "New Name") (some "tv") uOneDevice).2 = RegOutcome.updated ∧
    (registerDevice none 7 (some "9.9.9.9") (some "ua2") "d"
        (some "New Name") (some "tv") uOneDevice).1.devices.length =
      uOneDevice.devices.length ∧
    List.Forall₂ (fun d d2 => d2.deviceId = d.deviceId ∧ d2.deviceName = d.deviceName ∧
        d2.deviceType = d.deviceType ∧
        (d2 = d ∨
          d2 = { d with lastActive := 7, ipAddress := some "9.9.9.9", userAgent := some "ua2" }))
      uOneDevice.devices
      (registerDevice none 7 (some "9.9.9.9") (some "ua2") "d"
        (some "New Name") (some "tv") uOneDevice).1.devices := by
  exact device_registration_idempotent none 7 (some "9.9.9.9") (some "ua2") "d"
    (some "New Name") (some "tv") uOneDevice (by simp [uOneDevice, deviceD])

/-- `updateProgress` preserves the duration fields; it recomputes `progress`
by the rounding formula exactly when the total duration is positive and is
the identity otherwise. -/
theorem updateProgress_spec (h : WatchHistory) :
    (WatchHistory.updateProgress h).watchedDuration = h.watchedDuration ∧
    (WatchHistory.updateProgress h).totalDuration = h.totalDuration ∧
    (0 < h.totalDuration →
      (WatchHistory.updateProgress h).progress =
        min 100 (round (h.watchedDuration / h.totalDuration * 100))) ∧
    (¬ 0 < h.totalDuration → WatchHistory.updateProgress h = h) := by
  by_cases ht : 0 < h.totalDuration
  · refine ⟨?_, ?_, fun _ => ?_, fun hn => absurd ht hn⟩ <;>
      simp only [WatchHistory.updateProgress, if_pos ht]
  · refine ⟨?_, ?_, fun hp => absurd hp ht, fun _ => ?_⟩ <;>
      simp only [WatchHistory.updateProgress, if_neg ht]

/-- `updateProgress` keeps `completed` in sync with `progress ≥ 90` whenever
it was in sync before (it recomputes both together, or touches neither). -/
theorem updateProgress_completed (h : WatchHistory)
    (hinv : h.completed = decide (90 ≤ h.progress)) :
    (WatchHistory.updateProgress h).completed =
      decide (90 ≤ (WatchHistory.updateProgress h).progress) := by
  by_cases ht : 0 < h.totalDuration
  · simp only [WatchHistory.updateProgress, if_pos ht]
  · simp only [WatchHistory.updateProgress, if_neg ht]
    exact hinv

/-- A successful `validateSave` stores the document unchanged and certifies
the schema bounds on `progress`. -/
theorem validateSave_ok (h r : WatchHistory) (hok : validateSave h = Except.ok r) :
    r = h ∧ 0 ≤ r.progress ∧ r.progress ≤ 100 := by
  by_cases h1 : 0 ≤ h.progress
  · by_cases h2 : h.progress ≤ 100
    · rw [validateSave, if_pos h1, if_pos h2] at hok
      cases hok
      exact ⟨rfl, h1, h2⟩
    · rw [validateSave, if_pos h1, if_neg h2] at hok
      cases hok
  · rw [validateSave, if_neg h1] at hok
    cases hok

/-- A successful upsert stores exactly the `upsertCore` document, within the
schema bounds. -/
theorem updatePlaybackPosition_ok (now : Int) (cid cty : Option String)
    (existing : Option WatchHistory) (w : ℚ) (t : Option ℚ) (r : WatchHistory)
    (hok : updatePlaybackPosition now cid cty existing (some w) t = Except.ok r) :
    r = upsertCore now existing w t ∧ 0 ≤ r.progress ∧ r.progress ≤ 100 := by
  by_cases hc :
      (!(strTruthy cid) || !(strTruthy cty) || (some w : Option ℚ).isNone) = true
  · rw [updatePlaybackPosition, if_pos hc] at hok
    cases hok
  · rw [updatePlaybackPosition, if_neg hc] at hok
    exact validateSave_ok _ _ hok

/-- The document built by `upsertCore` is `updateProgress` applied to a
document whose watched duration is the supplied value and whose prior
progress is the existing row's progress (0 on insert). -/
theorem upsertCore_shape (now : Int) (existing : Option WatchHistory) (w : ℚ)
    (t : Option ℚ) :
    ∃ pre : WatchHistory, upsertCore now existing w t = WatchHistory.updateProgress pre ∧
      pre.watchedDuration = w ∧
      pre.progress = (existing.map WatchHistory.progress).getD 0 ∧
      pre.completed = (existing.map WatchHistory.completed).getD false := by
  cases existing with
  | none =>
    exact ⟨⟨w, t.getD 0, 0, false, now⟩, rfl, rfl, rfl, rfl⟩
  | some h0 =>
    cases t with
    | none =>
      exact ⟨{ h0 with watchedDuration := w, lastWatchedAt := now }, rfl, rfl, rfl, rfl⟩
    | some tv =>
      by_cases htv : tv ≠ 0
      · refine ⟨{ h0 with watchedDuration := w, totalDuration := tv, lastWatchedAt := now },
          ?_, rfl, rfl, rfl⟩
        simp only [upsertCore, if_pos htv]
      · refine ⟨{ h0 with watchedDuration := w, lastWatchedAt := now }, ?_, rfl, rfl, rfl⟩
        simp only [upsertCore, if_neg htv]

/-- The row stored by a first upsert of watched 300 of total 600. -/
def wh300of600 : WatchHistory :=
  { watchedDuration := 300, totalDuration := 600, progress := 50, completed := false,
    lastWatchedAt := 0 }

/-- The row stored by a first upsert of watched 540 of total 600. -/
def wh540of600 : WatchHistory :=
  { watchedDuration := 540, totalDuration := 600, progress := 90, completed := true,
    lastWatchedAt := 0 }

/-- The row after updating `wh300of600` with total duration -1: progress is
left at its stale prior value. -/
def whStale : WatchHistory :=
  { watchedDuration := 300, totalDuration := -1, progress := 50, completed := false,
    lastWatchedAt := 1 }

/-- The row after a partial update of `wh540of600` down to watched 100:
progress 17, completed flipped back to false. -/
def whFlipped : WatchHistory :=
  { watchedDuration := 100, totalDuration := 600, progress := 17, completed := false,
    lastWatchedAt := 1 }

/-- C6 (amended): a successfully stored playback-position row keeps the
supplied watched duration, its progress equals
`min(100, round(watchedDuration / totalDuration * 100))` whenever the stored
total duration is positive, and when the stored total duration is not
positive `updateProgress` leaves progress unchanged — 0 for a newly created
row, the prior value for an updated one; in all cases the stored progress
lies in [0, 100]. -/
theorem stored_progress_formula (now : Int) (cid cty : Option String)
    (existing : Option WatchHistory) (w : ℚ) (t : Option ℚ) (r : WatchHistory)
    (hok : updatePlaybackPosition now cid cty existing (some w) t = Except.ok r) :
    r.watchedDuration = w ∧
    (0 < r.totalDuration → r.progress = min 100 (round (w / r.totalDuration * 100))) ∧
    (r.totalDuration ≤ 0 → r.progress = (existing.map WatchHistory.progress).getD 0) ∧
    0 ≤ r.progress ∧ r.progress ≤ 100 := by
  obtain ⟨hr, hlo, hhi⟩ := updatePlaybackPosition_ok now cid cty existing w t r hok
  obtain ⟨pre, hpre, hw, hp, -⟩ := upsertCore_shape now existing w t
  rw [hpre] at hr
  obtain ⟨sw, st, spos, sid⟩ := updateProgress_spec pre
  refine ⟨?_, ?_, ?_, hlo, hhi⟩
  · rw [hr, sw, hw]
  · intro hpos
    rw [hr] at hpos ⊢
    rw [st] at hpos
    rw [spos hpos, st, hw]
  · intro hnp
    rw [hr] at hnp ⊢
    rw [st] at hnp
    rw [sid (not_lt.mpr hnp)]
    exact hp

/-- Witness for C6 (amended): inserting watched 540 of 600 stores
progress 90 within bounds. -/
theorem stored_progress_formula_witness :
    wh540of600.watchedDuration = (540 : ℚ) ∧
    (0 < wh540of600.totalDuration →
      wh540of600.progress = min 100 (round ((540 : ℚ) / wh540of600.totalDuration * 100))) ∧
    (wh540of600.totalDuration ≤ 0 → wh540of600.progress = 0) ∧
    0 ≤ wh540of600.progress ∧ wh540of600.progress ≤ 100 := by
  have h := stored_progress_formula 0 (some "c1") (some "Movie") none 540 (some 600)
    wh540of600
    (by
      norm_num [updatePlaybackPosition, strTruthy, validateSave, upsertCore,
        WatchHistory.updateProgress, round_eq, wh540of600]
      rintro (h | h) <;> exact absurd h (by decide))
  exact h

/-- Counterexample for C6: an update carrying a negative total duration
(`-1`, truthy in JS so it overwrites) leaves `updateProgress` inert, and the
stored row keeps its prior progress 50 — not 0 as the claim's
`equals 0 when totalDuration is not positive` clause requires. The prior row
is itself produced by a legitimate first upsert (300 of 600 → progress 50). -/
theorem nonpositive_total_keeps_prior_progress :
    updatePlaybackPosition 0 (some "c1") (some "Movie") none (some 300) (some 600) =
      Except.ok wh300of600 ∧
    updatePlaybackPosition 1 (some "c1") (some "Movie") (some wh300of600)
        (some 300) (some (-1)) =
      Except.ok whStale ∧
    whStale.totalDuration ≤ 0 ∧ whStale.progress = 50 ∧ whStale.progress ≠ 0 := by
  refine ⟨?_, ?_, by norm_num [whStale], by norm_num [whStale], by norm_num [whStale]⟩
  · norm_num [updatePlaybackPosition, strTruthy, validateSave, upsertCore,
      WatchHistory.updateProgress, round_eq, wh300of600]
    rintro (h | h) <;> exact absurd h (by decide)
  · norm_num [updatePlaybackPosition, strTruthy, validateSave, upsertCore,
      WatchHistory.updateProgress, wh300of600, whStale]
    rintro (h | h) <;> exact absurd h (by decide)

/-- C5 (amended): after every successful upsert the stored `completed` flag
equals `progress ≥ 90` (given the existing row satisfied that derived-field
invariant); it is recomputed on each update with a positive total duration,
so a later partial update with a smaller watched duration lowers progress and
flips `completed` back to false (see the counterexample). -/
theorem completed_matches_progress (now : Int) (cid cty : Option String)
    (existing : Option WatchHistory) (w : ℚ) (t : Option ℚ) (r : WatchHistory)
    (hinv : ∀ h0, existing = some h0 → h0.completed = decide (90 ≤ h0.progress))
    (hok : updatePlaybackPosition now cid cty existing (some w) t = Except.ok r) :
    r.completed = decide (90 ≤ r.progress) := by
  obtain ⟨hr, -, -⟩ := updatePlaybackPosition_ok now cid cty existing w t r hok
  obtain ⟨pre, hpre, -, hp, hc⟩ := upsertCore_shape now existing w t
  rw [hpre] at hr
  rw [hr]
  refine updateProgress_completed pre ?_
  rw [hp, hc]
  cases existing with
  | none => simp
  | some h0 => simpa using hinv h0 rfl

/-- Witness for C5 (amended): the spec scenario 540/600 stores
completed = true in sync with progress 90 ≥ 90. -/
theorem completed_matches_progress_witness :
    wh540of600.completed = decide (90 ≤ wh540of600.progress) := by
  have h := completed_matches_progress 0 (some "c1") (some "Movie") none 540 (some 600)
    wh540of600
    (by intro h0 hh; cases hh)
    (by
      norm_num [updatePlaybackPosition, strTruthy, validateSave, upsertCore,
        WatchHistory.updateProgress, round_eq, wh540of600]
      rintro (h | h) <;> exact absurd h (by decide))
  exact h

/-- Counterexample for C5: watched 540 of 600 marks the row completed
(progress 90); a later partial update with the smaller watched duration 100
(no total supplied) recomputes progress to 17 and flips `completed` back to
false — refuting `once true, never flips back`. -/
theorem completed_flips_back_counterexample :
    updatePlaybackPosition 0 (some "c1") (some "Movie") none (some 540) (some 600) =
      Except.ok wh540of600 ∧
    updatePlaybackPosition 1 (some "c1") (some "Movie") (some wh540of600)
        (some 100) none =
      Except.ok whFlipped ∧
    wh540of600.completed = true ∧ whFlipped.completed = false := by
  refine ⟨?_, ?_, rfl, rfl⟩
  · norm_num [updatePlaybackPosition, strTruthy, validateSave, upsertCore,
      WatchHistory.updateProgress, round_eq, wh540of600]
    rintro (h | h) <;> exact absurd h (by decide)
  · norm_num [updatePlaybackPosition, strTruthy, validateSave, upsertCore,
      WatchHistory.updateProgress, round_eq, wh540of600, whFlipped]
    rintro (h | h) <;> exact absurd h (by decide)
